import Mathlib

/-!
# Verification of the FermiLATLike example notebook

A shallow embedding, in Lean 4, of the single source file of this repository,
`examples/FermiLATLike_example.ipynb`.  The notebook defines two helper
functions, `doLAT` (a wrapper that shells out to gtburst's
`doTimeResolvedLike.py` script) and `createSrcModel` (which assembles an
EBL-attenuated power-law point source), and then runs a linear top-level
script: build the two source models, run `doLAT` for each, discover the
produced files by glob patterns, build the two `FermiLATLike` plugins, link
the EBL attenuation parameter between the two sources, and run a Bayesian
analysis.

Modelling choices:
* Values that Python interpolates into command strings with `%s` are carried
  as the strings `str(value)` would produce, so all argument formatting is
  exact string concatenation, as in the source.
* OS-level side effects (`os.system`, `os.chdir`, `print`) are recorded in an
  explicit trace of `Effect`s; the exit status that `os.system` would return
  is supplied by an oracle `exitStatus : String → Int` so that we can state
  that the notebook discards it.
* Python's character-based slice `s[:-2]` is `pySliceToMinus2`.
* `glob.glob` with a pattern of the shape `<dir>/*<suffix>` filters a
  directory listing by suffix; indexing `[0]` into a possibly-empty result
  list is modelled with `Option` (`none` is Python's uncaught `IndexError`).
-/

namespace FermiLATLikeExample

/-- An OS-level side effect performed by the notebook's `doLAT` helper. -/
inductive Effect where
  | system (cmd : String)
  | chdir (dir : String)
  | print (msg : String)
deriving DecidableEq, Repr

/-- The kind of an `Effect`, forgetting its payload. -/
inductive EffectKind where
  | system
  | chdir
  | print
deriving DecidableEq, Repr

/-- Forget an effect's payload. -/
def Effect.kind : Effect → EffectKind
  | .system _ => .system
  | .chdir _ => .chdir
  | .print _ => .print

/-- The parameters of `doLAT(OUTFILE, RA, DEC, TSTARTS, TSTOPS, ROI=5.0,
ZMAX=105, EMIN=65, EMAX=100000, IRF='p8_transient010e', data_path='./')`.
Scalar parameters are carried as the strings `str(value)` produces, since the
notebook only ever interpolates them with `%s`; the defaults below are the
`str()` images of the Python defaults. -/
structure DoLATInput where
  OUTFILE : String
  RA : String
  DEC : String
  TSTARTS : List String
  TSTOPS : List String
  ROI : String := "5.0"
  ZMAX : String := "105"
  EMIN : String := "65"
  EMAX : String := "100000"
  IRF : String := "p8_transient010e"
  data_path : String := "./"
deriving DecidableEq, Repr

/-- The hard-coded path of the external script:
`exe='$CONDA_PREFIX/lib/python2.7/site-packages/fermitools/GtBurst/scripts/doTimeResolvedLike.py'`. -/
def exePath : String :=
  "$CONDA_PREFIX/lib/python2.7/site-packages/fermitools/GtBurst/scripts/doTimeResolvedLike.py"

/-- `analysis_dir = '%s_analysis_%s-%s' % (OUTFILE,EMIN,EMAX)`. -/
def doLAT_analysis_dir (OUTFILE EMIN EMAX : String) : String :=
  OUTFILE ++ "_analysis_" ++ EMIN ++ "-" ++ EMAX

/-- Python's slice `s[:-2]`: drop the last two characters (clamping at the
empty string, exactly as the Python slice does). -/
def pySliceToMinus2 (s : String) : String :=
  ⟨s.data.take (s.data.length - 2)⟩

/-- The loop
`for t0,t1 in zip(TSTARTS,TSTOPS): TSTARTS_str+='%s, ' % t0; TSTOPS_str+='%s, ' % t1`
followed by `TSTARTS_str=TSTARTS_str[:-2]` and `TSTOPS_str=TSTOPS_str[:-2]`;
returns the pair `(TSTARTS_str, TSTOPS_str)`. -/
def tstartsTstops (TSTARTS TSTOPS : List String) : String × String :=
  let p := (TSTARTS.zip TSTOPS).foldl
    (fun acc t => (acc.1 ++ t.1 ++ ", ", acc.2 ++ t.2 ++ ", ")) ("", "")
  (pySliceToMinus2 p.1, pySliceToMinus2 p.2)

/-- The `args` dictionary of `doLAT`, as the list of its key/value pairs in
insertion order (values already rendered by `%s`, with the explicit quotes
the source puts around `tstarts`, `tstops`, `galactic_model` and
`particle_model`). -/
def doLAT_args (inp : DoLATInput) : List (String × String) :=
  let ts := tstartsTstops inp.TSTARTS inp.TSTOPS
  [("outfile", inp.OUTFILE),
   ("ra", inp.RA),
   ("dec", inp.DEC),
   ("roi", inp.ROI),
   ("tstarts", "'" ++ ts.1 ++ "'"),
   ("tstops", "'" ++ ts.2 ++ "'"),
   ("zmax", inp.ZMAX),
   ("emin", inp.EMIN),
   ("emax", inp.EMAX),
   ("irf", inp.IRF),
   ("galactic_model", "'template (fixed norm.)'"),
   ("particle_model", "'isotr template'"),
   ("tsmin", "25"),
   ("strategy", "time"),
   ("thetamax", "180"),
   ("spectralfiles", "yes"),
   ("liketype", "unbinned"),
   ("optimizeposition", "no"),
   ("datarepository", inp.data_path),
   ("flemin", "100.0"),
   ("flemax", "10000"),
   ("fgl_mode", "fast")]

/-- The command string passed to `os.system` for the external script:
`for k,i in args.items(): exe+=' --%s %s' % (k,i)` then
`exe+=' %s' % triggername` with `triggername = OUTFILE`. -/
def doLAT_cmd (inp : DoLATInput) : String :=
  (doLAT_args inp).foldl (fun exe kv => exe ++ " --" ++ kv.1 ++ " " ++ kv.2) exePath
    ++ " " ++ inp.OUTFILE

/-- The body of `doLAT`: make and enter the analysis directory, build and
print the command, run it, and return `analysis_dir`.  The result is the
trace of OS effects in program order, paired with the Python return value.
`exitStatus` supplies the value `os.system` would return for each command;
the source binds neither call's result, which the `let _ :=` translate. -/
def doLAT (inp : DoLATInput) (exitStatus : String → Int) : List Effect × String :=
  let analysis_dir := doLAT_analysis_dir inp.OUTFILE inp.EMIN inp.EMAX
  let _ := exitStatus ("mkdir -p " ++ analysis_dir)
  let exe := doLAT_cmd inp
  let _ := exitStatus exe
  ([Effect.system ("mkdir -p " ++ analysis_dir),
    Effect.chdir analysis_dir,
    Effect.print exe,
    Effect.system exe],
   analysis_dir)

/-- A prior object attached to a parameter: `Uniform_prior(lower_bound,
upper_bound)` or `Log_uniform_prior(lower_bound, upper_bound)`.  Bounds are
the exact decimal values written in the notebook, as rationals. -/
inductive Prior where
  | uniform (lower_bound upper_bound : ℚ)
  | log_uniform (lower_bound upper_bound : ℚ)
deriving DecidableEq, Repr

/-- The state of the `Powerlaw()` component after the notebook's assignments:
`index.prior`, `K.prior`, `piv`, `index`, `index.free` are all set by
`createSrcModel`, so the record carries exactly those fields. -/
structure Powerlaw where
  index_prior : Prior
  K_prior : Prior
  piv : ℚ
  index : ℚ
  index_free : Bool
deriving DecidableEq, Repr

/-- The state of the `EBLattenuation()` component.  `createSrcModel` sets
`attenuation.prior` and `attenuation.fix` on it directly; its `redshift`
parameter is only assigned later, through the composite (`redshift_2`), so it
is an `Option` that starts out `none` ("not yet assigned by the notebook"). -/
structure EBLattenuation where
  attenuation_prior : Prior
  attenuation_fix : Bool
  redshift : Option ℚ := none
deriving DecidableEq, Repr

/-- A spectral shape: a base component or a composite built with `*`. -/
inductive Shape where
  | powerlaw (p : Powerlaw)
  | ebl (e : EBLattenuation)
  | prod (f g : Shape)
deriving DecidableEq, Repr

/-- The assignment `source.redshift_2 = redshift * u.dimensionless_unscaled`
on a composite: `redshift_2` addresses the `redshift` parameter of the
second component, here the `EBLattenuation` factor.  (Multiplying by the
dimensionless unit leaves the value unchanged.) -/
def setRedshift2 (s : Shape) (z : ℚ) : Shape :=
  match s with
  | Shape.prod f (Shape.ebl e) => Shape.prod f (Shape.ebl { e with redshift := some z })
  | s => s

/-- `PointSource(src_name, ra, dec, spectral_shape = source)`. -/
structure PointSource where
  name : String
  ra : ℚ
  dec : ℚ
  spectral_shape : Shape
deriving DecidableEq, Repr

/-- The notebook's `createSrcModel(src_name, ra, dec, redshift, index)`:
configure a `Powerlaw`, configure an `EBLattenuation`, multiply them, set the
composite's `redshift_2`, and wrap the result in a `PointSource`. -/
def createSrcModel (src_name : String) (ra dec redshift index : ℚ) : PointSource :=
  let powerlaw : Powerlaw :=
    { index_prior := Prior.uniform (-5) 5,
      K_prior := Prior.log_uniform (1 / 10 ^ 20) (1 / 10 ^ 10),
      piv := 500000,
      index := index,
      index_free := false }
  let ebl : EBLattenuation :=
    { attenuation_prior := Prior.uniform 0 2,
      attenuation_fix := false }
  let source := Shape.prod (Shape.powerlaw powerlaw) (Shape.ebl ebl)
  let source := setRedshift2 source redshift
  { name := src_name, ra := ra, dec := dec, spectral_shape := source }

/-- `'%s/interval%s-%s/' % ('.', tstart, tstop)`. -/
def intervalDirectory (tstart tstop : String) : String :=
  "." ++ "/interval" ++ tstart ++ "-" ++ tstop ++ "/"

/-- `glob.glob` for a pattern of the shape `<dir>/*<suffix>` (the only shape
the notebook uses): of the names in the directory listing, those that end in
`suffix`, in listing order. -/
def globStar (suffix : String) (files : List String) : List String :=
  files.filter (fun f => suffix.data.isSuffixOf f.data)

/-- The three glob patterns the notebook builds from the interval directory:
`"%s/*_filt.fit" % directory`, `"%s/*_filt_expomap.fit" % directory`,
`"%s/*_filt_ltcube.fit" % directory`. -/
def discoveryPatterns (tstart tstop : String) : List String :=
  let directory := intervalDirectory tstart tstop
  [directory ++ "/*_filt.fit",
   directory ++ "/*_filt_expomap.fit",
   directory ++ "/*_filt_ltcube.fit"]

/-- The file-discovery step
`eventFile = glob.glob("%s/*_filt.fit" % directory)[0]` (and likewise
`expomap`, `ltcube`), applied to the interval directory's listing.
Indexing `[0]` into an empty match list raises `IndexError`; that uncaught
exception is `none` here, while a normal run returns the first match of each
pattern. -/
def discoverFiles (files : List String) : Option (String × String × String) := do
  let eventFile ← (globStar "_filt.fit" files).head?
  let expomap ← (globStar "_filt_expomap.fit" files).head?
  let ltcube ← (globStar "_filt_ltcube.fit" files).head?
  return (eventFile, expomap, ltcube)

/-- One step of the notebook's top-level script, at the granularity the
specification describes: per-source model construction (`createSrcModel`),
external invocation (`doLAT`), file discovery (the glob lookups), plugin
construction (`FermiLATLike(...)`), then the joint steps: parameter linking
(`model.link`), the Bayesian run (`BayesianAnalysis` setup and
`bayes.sample`), displaying results and plotting spectra. -/
inductive Step where
  | buildModel (src : String)
  | invokeLAT (src : String)
  | discover (src : String)
  | makePlugin (src : String)
  | linkParams
  | sampleBayes
  | displayResults
  | plotSpectra
deriving DecidableEq, Repr

/-- The notebook's executed cells in order (cells 2, 4, 5, 6, 7), at `Step`
granularity.  In cell 2: `source_1 = createSrcModel(...)`, then
`doLAT(...)`, then the glob lookups, then `lat_plugin_1 = FermiLATLike(...)`;
cell 4 repeats this for the second trigger; cell 5 links and samples; cells
6 and 7 display and plot. -/
def notebookSteps : List Step :=
  [Step.buildModel "bn080916009",
   Step.invokeLAT "bn080916009",
   Step.discover "bn080916009",
   Step.makePlugin "bn080916009",
   Step.buildModel "bn090102122",
   Step.invokeLAT "bn090102122",
   Step.discover "bn090102122",
   Step.makePlugin "bn090102122",
   Step.linkParams,
   Step.sampleBayes,
   Step.displayResults,
   Step.plotSpectra]

/-- The position of a step in the notebook's top-level sequence. -/
def stepIdx (s : Step) : Nat :=
  notebookSteps.indexOf s

/-- One call to `model.link(a, b)`: parameter `a` (by its path inside the
joint model) is linked to parameter `b`. -/
structure LinkCall where
  linked_path : String
  to_path : String
deriving DecidableEq, Repr

/-- Every `model.link` call the notebook makes: exactly the single call
`model.link(model.bn080916009.spectrum.main.composite.attenuation_2,
model.bn090102122.spectrum.main.composite.attenuation_2)` in cell 5. -/
def notebookLinkCalls : List LinkCall :=
  [{ linked_path := "bn080916009.spectrum.main.composite.attenuation_2",
     to_path := "bn090102122.spectrum.main.composite.attenuation_2" }]

/-- The notebook's first `doLAT` call, cell 2:
`doLAT('bn080916009', 119.889999, -56.700001, [3.03], [1531.780029])`
(all remaining parameters left at their defaults). -/
def inputGRB1 : DoLATInput :=
  { OUTFILE := "bn080916009",
    RA := "119.889999",
    DEC := "-56.700001",
    TSTARTS := ["3.03"],
    TSTOPS := ["1531.780029"] }

/-! ## Shared helper lemmas -/

theorem str_join_cons (s : String) (l : List String) :
    String.join (s :: l) = s ++ String.join l :=
  String.ext (by simp [String.data_join])

theorem foldl_append_join {α : Type} (f : α → String) (l : List α) :
    ∀ a : String, l.foldl (fun acc x => acc ++ f x) a = a ++ String.join (l.map f) := by
  induction l with
  | nil => intro a; simp [String.join]
  | cons x l ih =>
      intro a
      simp only [List.foldl_cons, List.map_cons, str_join_cons, ih, String.append_assoc]

theorem intercalate_go_append (s : String) (l : List String) :
    ∀ acc₁ acc₂ : String,
      String.intercalate.go (acc₁ ++ acc₂) s l
        = acc₁ ++ String.intercalate.go acc₂ s l := by
  induction l with
  | nil => intro a b; simp [String.intercalate.go]
  | cons x l ih =>
      intro a b
      simp only [String.intercalate.go]
      rw [String.append_assoc a b s, String.append_assoc a (b ++ s) x, ih]

theorem intercalate_cons_cons (s a b : String) (l : List String) :
    String.intercalate s (a :: b :: l) = a ++ s ++ String.intercalate s (b :: l) := by
  simp only [String.intercalate]
  simp only [String.intercalate.go]
  rw [String.append_assoc a s b, intercalate_go_append s l a (s ++ b),
    intercalate_go_append s l s b, ← String.append_assoc]

theorem join_trailing_sep (x : String) (xs : List String) :
    String.join ((x :: xs).map (fun y => y ++ ", "))
      = String.intercalate ", " (x :: xs) ++ ", " := by
  induction xs generalizing x with
  | nil => simp [String.join, String.intercalate, String.intercalate.go]
  | cons y ys ih =>
      rw [List.map_cons, str_join_cons, ih y, intercalate_cons_cons]
      simp [String.append_assoc]

theorem pySliceToMinus2_append_sep (s : String) :
    pySliceToMinus2 (s ++ ", ") = s := by
  apply String.ext
  show ((s ++ ", ").data.take ((s ++ ", ").data.length - 2)) = s.data
  rw [String.data_append]
  have h : (", ").data = [',', ' '] := rfl
  rw [h, List.length_append]
  simp [List.take_left]

theorem slice_join_trailing (xs : List String) :
    pySliceToMinus2 (String.join (xs.map (fun y => y ++ ", ")))
      = String.intercalate ", " xs := by
  cases xs with
  | nil => rfl
  | cons x xs => rw [join_trailing_sep, pySliceToMinus2_append_sep]

theorem pair_foldl_split (l : List (String × String)) :
    ∀ a b : String,
      l.foldl (fun acc t => (acc.1 ++ t.1 ++ ", ", acc.2 ++ t.2 ++ ", ")) (a, b)
        = (l.foldl (fun acc t => acc ++ t.1 ++ ", ") a,
           l.foldl (fun acc t => acc ++ t.2 ++ ", ") b) := by
  induction l with
  | nil => intros; rfl
  | cons x l ih => intro a b; simp only [List.foldl_cons]; exact ih _ _

theorem map_fst_zip_take (l₁ l₂ : List String) :
    (l₁.zip l₂).map Prod.fst = l₁.take (min l₁.length l₂.length) := by
  induction l₁ generalizing l₂ with
  | nil => simp
  | cons x l₁ ih =>
      cases l₂ with
      | nil => simp
      | cons y l₂ =>
          simp only [List.zip_cons_cons, List.map_cons, List.length_cons,
            Nat.succ_min_succ, List.take_succ_cons, ih]

theorem map_snd_zip_take (l₁ l₂ : List String) :
    (l₁.zip l₂).map Prod.snd = l₂.take (min l₁.length l₂.length) := by
  induction l₁ generalizing l₂ with
  | nil => simp
  | cons x l₁ ih =>
      cases l₂ with
      | nil => simp
      | cons y l₂ =>
          simp only [List.zip_cons_cons, List.map_cons, List.length_cons,
            Nat.succ_min_succ, List.take_succ_cons, ih]

theorem foldl_trailing_join (f : String × String → String)
    (ps : List (String × String)) :
    ∀ a : String,
      ps.foldl (fun acc t => acc ++ f t ++ ", ") a
        = a ++ String.join ((ps.map f).map (fun y => y ++ ", ")) := by
  induction ps with
  | nil => intro a; simp [String.join]
  | cons x l ih =>
      intro a
      rw [List.foldl_cons, ih (a ++ f x ++ ", "), List.map_cons, List.map_cons,
        str_join_cons]
      simp [String.append_assoc]

theorem tstartsTstops_eq (TSTARTS TSTOPS : List String) :
    tstartsTstops TSTARTS TSTOPS =
      (String.intercalate ", "
         (TSTARTS.take (min TSTARTS.length TSTOPS.length)),
       String.intercalate ", "
         (TSTOPS.take (min TSTARTS.length TSTOPS.length))) := by
  unfold tstartsTstops
  simp only [pair_foldl_split]
  rw [foldl_trailing_join Prod.fst, foldl_trailing_join Prod.snd,
    String.empty_append, String.empty_append, slice_join_trailing,
    slice_join_trailing, map_fst_zip_take, map_snd_zip_take]

/-! ## Claim theorems -/

/-- C1 (counterexample): at the notebook's first `doLAT` call, the command's
named arguments do not include `thetamask` at all; they do include
`thetamax`, which is absent from the list of argument names the claim
allows, so the command carries a named argument outside the claimed set. -/
theorem C1_counterexample :
    "thetamask" ∉ (doLAT_args inputGRB1).map Prod.fst ∧
    "thetamax" ∈ (doLAT_args inputGRB1).map Prod.fst ∧
    "thetamax" ∉ ["outfile", "ra", "dec", "roi", "tstarts", "tstops", "zmax",
      "emin", "emax", "irf", "galactic_model", "particle_model", "tsmin",
      "strategy", "thetamask", "spectralfiles", "liketype", "optimizeposition",
      "datarepository", "flemin", "flemax", "fgl_mode"] := by
  decide

/-- C1 (amended): for every call to `doLAT`, the command string passed to
`os.system` is the script path followed by exactly the named arguments
`outfile, ra, dec, roi, tstarts, tstops, zmax, emin, emax, irf,
galactic_model, particle_model, tsmin, strategy, thetamax (not thetamask),
spectralfiles, liketype, optimizeposition, datarepository, flemin, flemax,
fgl_mode`, each rendered as ` --<name> <value>`, and no other named
argument, followed by the trigger name. -/
theorem C1_amended_named_arguments (inp : DoLATInput) :
    (doLAT_args inp).map Prod.fst =
      ["outfile", "ra", "dec", "roi", "tstarts", "tstops", "zmax", "emin",
       "emax", "irf", "galactic_model", "particle_model", "tsmin", "strategy",
       "thetamax", "spectralfiles", "liketype", "optimizeposition",
       "datarepository", "flemin", "flemax", "fgl_mode"] ∧
    doLAT_cmd inp =
      exePath ++
        String.join ((doLAT_args inp).map
          (fun kv => " --" ++ (kv.1 ++ (" " ++ kv.2)))) ++
        " " ++ inp.OUTFILE := by
  refine ⟨rfl, ?_⟩
  unfold doLAT_cmd
  rw [show (fun (exe : String) (kv : String × String) =>
        exe ++ " --" ++ kv.1 ++ " " ++ kv.2)
      = (fun (exe : String) (kv : String × String) =>
        exe ++ (" --" ++ (kv.1 ++ (" " ++ kv.2)))) from
    funext fun exe => funext fun kv => by simp [String.append_assoc]]
  rw [foldl_append_join]

/-- C3: `doLAT` never inspects the exit status of the shell commands it
runs: its entire observable outcome (effect trace and return value) is the
same for every exit-status assignment of `os.system`. -/
theorem C3_exit_status_ignored (inp : DoLATInput) (es es' : String → Int) :
    doLAT inp es = doLAT inp es' :=
  rfl

/-- C6: every `createSrcModel` call returns a `PointSource` whose spectral
shape is the product of a `Powerlaw` component and an `EBLattenuation`
component, with the redshift parameter of the composite set to the given
redshift. -/
theorem C6_createSrcModel_shape (src_name : String) (ra dec redshift index : ℚ) :
    ∃ p e, (createSrcModel src_name ra dec redshift index).spectral_shape
        = Shape.prod (Shape.powerlaw p) (Shape.ebl e)
      ∧ e.redshift = some redshift :=
  ⟨_, _, rfl, rfl⟩

/-- C7: the files consumed after a `doLAT` run are looked up by exactly the
three patterns `*_filt.fit`, `*_filt_expomap.fit`, `*_filt_ltcube.fit`,
each prefixed by the interval directory, whose name is
`./interval<tstart>-<tstop>/`. -/
theorem C7_discovery_patterns (tstart tstop : String) :
    intervalDirectory tstart tstop
      = "./interval" ++ (tstart ++ ("-" ++ (tstop ++ "/"))) ∧
    discoveryPatterns tstart tstop =
      [intervalDirectory tstart tstop ++ "/*_filt.fit",
       intervalDirectory tstart tstop ++ "/*_filt_expomap.fit",
       intervalDirectory tstart tstop ++ "/*_filt_ltcube.fit"] := by
  refine ⟨?_, rfl⟩
  simp [intervalDirectory, String.append_assoc]

/-- C8: `doLAT` and `createSrcModel` are straight-line: for every input (and
every exit status the OS returns), `doLAT` performs the same fixed sequence
of four operations — a `system` call, a `chdir`, a `print`, a `system`
call — and `createSrcModel` always builds one and the same closed-form
result record, with no conditional, no exception and no retry in either. -/
theorem C8_straight_line (inp : DoLATInput) (es : String → Int)
    (s : String) (ra dec z i : ℚ) :
    (doLAT inp es).1.map Effect.kind
      = [EffectKind.system, EffectKind.chdir, EffectKind.print, EffectKind.system] ∧
    createSrcModel s ra dec z i =
      { name := s, ra := ra, dec := dec,
        spectral_shape := Shape.prod
          (Shape.powerlaw
            { index_prior := Prior.uniform (-5) 5,
              K_prior := Prior.log_uniform (1 / 10 ^ 20) (1 / 10 ^ 10),
              piv := 500000, index := i, index_free := false })
          (Shape.ebl
            { attenuation_prior := Prior.uniform 0 2,
              attenuation_fix := false, redshift := some z }) } :=
  ⟨rfl, rfl⟩

/-- C10: every `doLAT` call creates (with `mkdir -p`) the directory
`<OUTFILE>_analysis_<EMIN>-<EMAX>`, changes the working directory into it,
performs no further `chdir` (so it never changes back), and returns exactly
that directory name. -/
theorem C10_doLAT_directory_effect (inp : DoLATInput) (es : String → Int) :
    (doLAT inp es).2 = doLAT_analysis_dir inp.OUTFILE inp.EMIN inp.EMAX ∧
    doLAT_analysis_dir inp.OUTFILE inp.EMIN inp.EMAX
      = inp.OUTFILE ++ "_analysis_" ++ inp.EMIN ++ "-" ++ inp.EMAX ∧
    (doLAT inp es).1 =
      [Effect.system ("mkdir -p " ++ (doLAT inp es).2),
       Effect.chdir ((doLAT inp es).2),
       Effect.print (doLAT_cmd inp),
       Effect.system (doLAT_cmd inp)] ∧
    (doLAT inp es).1.filter (fun e => e.kind == EffectKind.chdir)
      = [Effect.chdir ((doLAT inp es).2)] := by
  refine ⟨rfl, rfl, rfl, ?_⟩
  simp [doLAT, Effect.kind]

/-- C4 (counterexample): the claimed per-source order — external invocation,
then file discovery, then model construction — fails on the notebook's
top-level sequence: for the first source, `createSrcModel` (model
construction) runs before `doLAT` (the external invocation), so discovery
does not precede construction. -/
theorem C4_counterexample :
    ¬ (stepIdx (Step.invokeLAT "bn080916009") < stepIdx (Step.discover "bn080916009") ∧
       stepIdx (Step.discover "bn080916009") < stepIdx (Step.buildModel "bn080916009") ∧
       stepIdx (Step.buildModel "bn080916009") < stepIdx (Step.makePlugin "bn080916009")) := by
  decide

/-- C4 (amended): the notebook's top-level script executes, for each source
in turn: (1) build the source model via `createSrcModel`, (2) invoke the
external data-reduction command, (3) discover the produced files by glob
pattern, (4) instantiate the likelihood plugin from the files; and after
both sources: (5) link parameters across models, (6) run a Bayesian
sampler, (7) display and then plot the results. -/
theorem C4_amended_order :
    (stepIdx (Step.buildModel "bn080916009") < stepIdx (Step.invokeLAT "bn080916009") ∧
     stepIdx (Step.invokeLAT "bn080916009") < stepIdx (Step.discover "bn080916009") ∧
     stepIdx (Step.discover "bn080916009") < stepIdx (Step.makePlugin "bn080916009")) ∧
    (stepIdx (Step.makePlugin "bn080916009") < stepIdx (Step.buildModel "bn090102122")) ∧
    (stepIdx (Step.buildModel "bn090102122") < stepIdx (Step.invokeLAT "bn090102122") ∧
     stepIdx (Step.invokeLAT "bn090102122") < stepIdx (Step.discover "bn090102122") ∧
     stepIdx (Step.discover "bn090102122") < stepIdx (Step.makePlugin "bn090102122")) ∧
    (stepIdx (Step.makePlugin "bn090102122") < stepIdx Step.linkParams ∧
     stepIdx Step.linkParams < stepIdx Step.sampleBayes ∧
     stepIdx Step.sampleBayes < stepIdx Step.displayResults ∧
     stepIdx Step.displayResults < stepIdx Step.plotSpectra) := by
  decide

/-- C5: the notebook makes exactly one `model.link` call, and it links the
`attenuation_2` parameter of source `bn080916009` to the `attenuation_2`
parameter of source `bn090102122`; no other parameter is linked between the
two sources. -/
theorem C5_single_attenuation_link :
    notebookLinkCalls.length = 1 ∧
    notebookLinkCalls =
      [{ linked_path := "bn080916009.spectrum.main.composite.attenuation_2",
         to_path := "bn090102122.spectrum.main.composite.attenuation_2" }] := by
  exact ⟨rfl, rfl⟩

/-- C2: the file-discovery step fails (with Python's uncaught `IndexError`,
modelled by `none`) exactly when one of the three glob patterns matches no
file in the interval directory; when each pattern has at least one match,
no error is raised and the first match of each pattern is returned. -/
theorem C2_discovery_indexing (files : List String) :
    (discoverFiles files = none ↔
       globStar "_filt.fit" files = [] ∨
       globStar "_filt_expomap.fit" files = [] ∨
       globStar "_filt_ltcube.fit" files = []) ∧
    (∀ e es x xs l ls,
       globStar "_filt.fit" files = e :: es →
       globStar "_filt_expomap.fit" files = x :: xs →
       globStar "_filt_ltcube.fit" files = l :: ls →
       discoverFiles files = some (e, x, l)) := by
  constructor
  · cases h1 : globStar "_filt.fit" files <;>
      cases h2 : globStar "_filt_expomap.fit" files <;>
        cases h3 : globStar "_filt_ltcube.fit" files <;>
          simp [discoverFiles, h1, h2, h3]
  · intro e es x xs l ls h1 h2 h3
    simp [discoverFiles, h1, h2, h3]

/-- Witness for C2 at a concrete listing holding one file of each kind: the
discovery step succeeds and returns the three first matches. -/
theorem C2_discovery_indexing_witness :
    discoverFiles ["gll_ft1_filt.fit", "gll_ft1_filt_expomap.fit", "gll_ft1_filt_ltcube.fit"]
      = some ("gll_ft1_filt.fit", "gll_ft1_filt_expomap.fit", "gll_ft1_filt_ltcube.fit") :=
  (C2_discovery_indexing _).2 "gll_ft1_filt.fit" [] "gll_ft1_filt_expomap.fit" []
    "gll_ft1_filt_ltcube.fit" [] (by decide) (by decide) (by decide)

/-- C9: when `doLAT` is called with `TSTARTS` and `TSTOPS` of unequal
lengths, `zip` silently truncates to the shorter list: the `--tstarts` and
`--tstops` argument values each hold exactly
`min (TSTARTS.length) (TSTOPS.length)` values joined by `", "` with no
trailing separator (inside the quotes the source adds), and no error is
signalled (`doLAT_args` is total). -/
theorem C9_interval_truncation (inp : DoLATInput) :
    (doLAT_args inp).get? 4
        = some ("tstarts", "'" ++ String.intercalate ", "
            (inp.TSTARTS.take (min inp.TSTARTS.length inp.TSTOPS.length)) ++ "'") ∧
    (doLAT_args inp).get? 5
        = some ("tstops", "'" ++ String.intercalate ", "
            (inp.TSTOPS.take (min inp.TSTARTS.length inp.TSTOPS.length)) ++ "'") ∧
    (inp.TSTARTS.take (min inp.TSTARTS.length inp.TSTOPS.length)).length
        = min inp.TSTARTS.length inp.TSTOPS.length ∧
    (inp.TSTOPS.take (min inp.TSTARTS.length inp.TSTOPS.length)).length
        = min inp.TSTARTS.length inp.TSTOPS.length := by
  refine ⟨?_, ?_, ?_, ?_⟩
  · show some ("tstarts", "'" ++ (tstartsTstops inp.TSTARTS inp.TSTOPS).1 ++ "'") = _
    rw [tstartsTstops_eq]
  · show some ("tstops", "'" ++ (tstartsTstops inp.TSTARTS inp.TSTOPS).2 ++ "'") = _
    rw [tstartsTstops_eq]
  · rw [List.length_take]
    exact Nat.min_eq_left (Nat.min_le_left _ _)
  · rw [List.length_take]
    exact Nat.min_eq_left (Nat.min_le_right _ _)

end FermiLATLikeExample
